import Mathlib

/-!
Verification of the conversion driver in convert_folium_to_leaflet.py.

The script is a single function convert_all_layers that runs eight
independent conversion steps, each reading one input file and writing at
most one output file, every step wrapped in a try/except that prints a
status line, followed by an unconditional write of map_config.json.

Shallow embedding: the filesystem is an association list from path to
typed file content; each step is a pure core function of the content
found at its input path, returning Except (the Python exception); the
try/except wrapper is runStep; the external geometry library (shapely
via geopandas: simplify, centroid, dissolve, reprojection) is an
abstract parameter GeomLib, since it is outside this repository.
Numeric values are modelled with rationals, reading the decimal
literals of the source exactly.
-/

/-- JSON values as produced by json.dump, with a separate constructor for
Python ints (serialized without a decimal point) and for the NaN literal
that json.dump emits for missing pandas values. -/
inductive JVal where
  | null : JVal
  | nan : JVal
  | num : ℚ → JVal
  | int : ℤ → JVal
  | str : String → JVal
  | arr : List JVal → JVal
  | obj : List (String × JVal) → JVal

/-- Field access in a JSON object, none on other value kinds. -/
def jget (v : JVal) (k : String) : Option JVal :=
  match v with
  | JVal.obj l => List.lookup k l
  | _ => none

/-- Keys of a JSON object, empty on other value kinds. -/
def jKeys (v : JVal) : List String :=
  match v with
  | JVal.obj l => l.map (fun p => p.1)
  | _ => []

/-- Geometries, with coordinates kept only where the script touches them
(the x and y of points; other kinds only matter through their type). -/
inductive Geom where
  | point : ℚ → ℚ → Geom
  | lineString : List (ℚ × ℚ) → Geom
  | polygon : List (List (ℚ × ℚ)) → Geom
  | multiPolygon : List (List (List (ℚ × ℚ))) → Geom

/-- geom_type test used by the POI step: Polygon or MultiPolygon. -/
def isAreal (g : Geom) : Bool :=
  match g with
  | Geom.polygon _ => true
  | Geom.multiPolygon _ => true
  | _ => false

/-- Attribute access geometry.y: defined on points, an AttributeError on
every other geometry kind, as in shapely. -/
def Geom.y : Geom → Except String ℚ
  | Geom.point _ y => Except.ok y
  | _ => Except.error "object has no attribute y"

/-- Attribute access geometry.x: defined on points only. -/
def Geom.x : Geom → Except String ℚ
  | Geom.point x _ => Except.ok x
  | _ => Except.error "object has no attribute x"

/-- The external geometry library (shapely operations reached through
geopandas). It is a parameter of the embedding: simplify takes the
tolerance and the preserve_topology flag, centroid returns the x and y
of the centroid point, dissolve merges a list of geometries, toCrs
reprojects to EPSG 4326. -/
structure GeomLib where
  simplify : ℚ → Bool → Geom → Geom
  centroid : Geom → ℚ × ℚ
  dissolve : List Geom → Geom
  toCrs : Geom → Geom

/-- A trivial instantiation of the geometry library, used to evaluate the
development on concrete inputs. -/
def idLib : GeomLib :=
  { simplify := fun _ _ g => g
    centroid := fun _ => (0, 0)
    dissolve := fun _ => Geom.point 0 0
    toCrs := fun g => g }

/-- One row of the tract shapefile: the STATEFP attribute and geometry
(other attributes are unused by the script). -/
structure TractRow where
  STATEFP : String
  geometry : Geom

/-- The tract shapefile frame: a CRS (possibly absent) and its rows. -/
structure TractFrame where
  crs : Option String
  rows : List TractRow

/-- One row of the highway line shapefile after selecting id and
geometry. -/
structure HighwayRow where
  id : String
  geometry : Geom

/-- One row of the fast food CSV; none models a NaN cell. -/
structure FoodRow where
  Name : Option String
  Latitude : Option ℚ
  Longitude : Option ℚ
  Rating : Option ℚ

/-- The fast food CSV frame: its column names (column selection raises a
KeyError when one is missing) and its rows. -/
structure FoodCsv where
  cols : List String
  rows : List FoodRow

/-- One row of the POI point shapefile after selecting name and
geometry. -/
structure PoiRow where
  name : Option String
  geometry : Geom

/-- One row of the traffic station spreadsheet after the header row is
skipped and the ten positional column names are assigned; only the four
columns the script reads are modelled, each possibly NaN. -/
structure StationRow where
  Loc_ID : Option String
  Latitude : Option ℚ
  Longitude : Option ℚ
  TrafficCount : Option ℚ

/-- One row of the interpolated road traffic shapefile after selecting
mean_traff and geometry. -/
structure RoadRow where
  mean_traff : ℚ
  geometry : Geom

/-- One row of the road output after the rename of mean_traff to
mean_traffic. -/
structure RoadOut where
  mean_traffic : ℚ
  geometry : Geom

/-- One row of the merged race GeoJSON; estimate is the value of the
column named Total:—Estimate when that column exists. -/
structure DivRow where
  estimate : Option ℚ
  geometry : Geom

/-- The merged race GeoJSON frame with its column names. -/
structure DivFrame where
  cols : List String
  rows : List DivRow

/-- Typed file contents, one constructor per file shape the script reads
or writes. -/
inductive Content where
  | tract : TractFrame → Content
  | lineShp : List HighwayRow → Content
  | csv : FoodCsv → Content
  | pointShp : List PoiRow → Content
  | xlsx : List StationRow → Content
  | roadShp : List RoadRow → Content
  | geojson : DivFrame → Content
  | boundaryOut : Geom → Content
  | linesOut : List HighwayRow → Content
  | json : JVal → Content
  | roadsOut : List RoadOut → Content
  | divOut : DivFrame → Content

/-- The filesystem: an association list from path to content, newest
write first. -/
abbrev FS : Type := List (String × Content)

/-- Reading a path returns the most recent content written there. -/
def FS.read (fs : FS) (p : String) : Option Content := List.lookup p fs

/-- Writing shadows any earlier content at the same path. -/
def FS.write (fs : FS) (p : String) (c : Content) : FS := (p, c) :: fs

/-- Apply a list of writes in order. -/
def applyWrites (fs : FS) (ws : List (String × Content)) : FS :=
  ws.foldl (fun a w => FS.write a w.1 w.2) fs

/-- Serialization of a possibly-NaN string cell. -/
def optStr : Option String → JVal
  | some s => JVal.str s
  | none => JVal.nan

/-- Serialization of a possibly-NaN numeric cell. -/
def optNum : Option ℚ → JVal
  | some q => JVal.num q
  | none => JVal.nan

/-- The Python int() cast on a float: truncation toward zero. -/
def pyInt (q : ℚ) : ℤ := if 0 ≤ q then ⌊q⌋ else ⌈q⌉

/-- The result of a step body: the writes it performs and the status
lines it prints, or the exception it raises. -/
abbrev StepResult := Except String (List (String × Content) × List String)

/-- The writes a step body performed (none when it raised). -/
def wsOf : StepResult → List (String × Content)
  | Except.ok r => r.1
  | Except.error _ => []

/-- The status lines after the header: the success prints, or the error
line of the except branch. -/
def msgsOf : StepResult → List String
  | Except.ok r => r.2
  | Except.error e => ["   ✗ Error: " ++ e]

/-- Step 1, state boundary: filter STATEFP to 35, dissolve, reproject
when the CRS is set and differs from EPSG:4326, write the boundary. -/
def step1Core (lib : GeomLib) (c : Option Content) : StepResult :=
  match c with
  | some (Content.tract f) =>
    let nm := f.rows.filter (fun r => r.STATEFP == "35")
    let dissolved := lib.dissolve (nm.map (fun r => r.geometry))
    let g :=
      match f.crs with
      | some crs => if crs ≠ "EPSG:4326" then lib.toCrs dissolved else dissolved
      | none => dissolved
    Except.ok ([("nm_boundary.geojson", Content.boundaryOut g)],
      ["   ✓ nm_boundary.geojson created"])
  | _ => Except.error "read_file failed"

/-- Step 2, highway network: keep id and geometry, simplify with
tolerance 0.0001 preserving topology, write the lines. -/
def step2Core (lib : GeomLib) (c : Option Content) : StepResult :=
  match c with
  | some (Content.lineShp rows) =>
    let hw := rows.map (fun r =>
      { r with geometry := lib.simplify 0.0001 true r.geometry })
    Except.ok ([("highways.geojson", Content.linesOut hw)],
      ["   ✓ highways.geojson created (" ++ toString hw.length ++ " features)"])
  | _ => Except.error "read_file failed"

/-- The columns the fast food step selects. -/
def foodCols : List String := ["Name", "Latitude", "Longitude", "Rating"]

/-- The dict built for one fast food row: lat, lon and name carry the raw
cell (NaN included), while the rating key is always present and holds
None exactly when pd.notna rejects the cell. -/
def ffJson (r : FoodRow) : JVal :=
  JVal.obj [("lat", optNum r.Latitude), ("lon", optNum r.Longitude),
    ("name", optStr r.Name),
    ("rating", match r.Rating with
      | some q => JVal.num q
      | none => JVal.null)]

/-- Step 3, fast food locations: select the four columns (KeyError when
one is missing), build one dict per row, dump the list. -/
def step3Core (c : Option Content) : StepResult :=
  match c with
  | some (Content.csv f) =>
    if foodCols.all (fun s => f.cols.contains s) then
      let ff_data := f.rows.map ffJson
      Except.ok ([("fast_food_locations.json", Content.json (JVal.arr ff_data))],
        ["   ✓ fast_food_locations.json created (" ++ toString ff_data.length ++ " locations)"])
    else Except.error "KeyError"
  | _ => Except.error "read_file failed"

/-- The row loop of the script: build one record per row, the first
exception aborting the whole step. -/
def buildRecords (f : α → Except String JVal) : List α → Except String (List JVal)
  | [] => Except.ok []
  | a :: as =>
    match f a with
    | Except.error e => Except.error e
    | Except.ok v =>
      match buildRecords f as with
      | Except.error e => Except.error e
      | Except.ok vs => Except.ok (v :: vs)

/-- The dict built for one POI row, reading y and x of its geometry
(raising on a geometry that is not a point). -/
def poiRecord (r : PoiRow) : Except String JVal :=
  match r.geometry.y, r.geometry.x with
  | Except.ok lat, Except.ok lon =>
    Except.ok (JVal.obj [("lat", JVal.num lat), ("lon", JVal.num lon),
      ("name", optStr r.name)])
  | Except.error e, _ => Except.error e
  | _, Except.error e => Except.error e

/-- The centroid replacement of the POI step: areal geometries become
their centroid point, others are untouched. -/
def poiReplace (lib : GeomLib) (r : PoiRow) : PoiRow :=
  if isAreal r.geometry then
    { r with geometry := Geom.point (lib.centroid r.geometry).1 (lib.centroid r.geometry).2 }
  else r

/-- Step 4, POI locations: select name and geometry, replace areal
geometries by their centroid, build one dict per row, dump the list. -/
def step4Core (lib : GeomLib) (c : Option Content) : StepResult :=
  match c with
  | some (Content.pointShp rows) =>
    let rows2 := rows.map (poiReplace lib)
    match buildRecords poiRecord rows2 with
    | Except.error e => Except.error e
    | Except.ok recs =>
      Except.ok ([("poi_locations.json", Content.json (JVal.arr recs))],
        ["   ✓ poi_locations.json created (" ++ toString recs.length ++ " locations)"])
  | _ => Except.error "read_file failed"

/-- The dropna subset test of the station step. -/
def stationComplete (r : StationRow) : Bool :=
  r.Latitude.isSome && r.Longitude.isSome && r.TrafficCount.isSome

/-- The dict built for one station row; int() on a NaN count would raise
(unreachable after dropna). -/
def stationRecord (r : StationRow) : Except String JVal :=
  match r.TrafficCount with
  | some q =>
    Except.ok (JVal.obj [("lat", optNum r.Latitude), ("lon", optNum r.Longitude),
      ("count", JVal.int (pyInt q)), ("loc_id", optStr r.Loc_ID)])
  | none => Except.error "cannot convert float NaN to integer"

/-- Step 5, traffic count stations: dropna on Latitude, Longitude and
TrafficCount, build one dict per remaining row, dump the list. -/
def step5Core (c : Option Content) : StepResult :=
  match c with
  | some (Content.xlsx rows) =>
    let kept := rows.filter stationComplete
    match buildRecords stationRecord kept with
    | Except.error e => Except.error e
    | Except.ok recs =>
      Except.ok ([("traffic_stations.json", Content.json (JVal.arr recs))],
        ["   ✓ traffic_stations.json created (" ++ toString recs.length ++ " stations)"])
  | _ => Except.error "read_file failed"

/-- Stable insertion into a list sorted descending by key: an element
moves past entries with a strictly larger key only. -/
def insertDesc (key : α → ℚ) (x : α) : List α → List α
  | [] => [x]
  | y :: ys => if key x < key y then y :: insertDesc key x ys else x :: y :: ys

/-- Sort descending by key. -/
def sortDesc (key : α → ℚ) : List α → List α
  | [] => []
  | x :: xs => insertDesc key x (sortDesc key xs)

/-- The pandas nlargest call: the n rows with the largest key, ordered
descending, earlier rows kept first among ties. -/
def nlargest (n : ℕ) (key : α → ℚ) (l : List α) : List α :=
  (sortDesc key l).take n

/-- Step 6, road traffic volume: select mean_traff and geometry, rename
to mean_traffic, simplify with tolerance 0.0001, and when more than
10000 rows remain keep the 10000 largest by mean_traffic. -/
def step6Core (lib : GeomLib) (c : Option Content) : StepResult :=
  match c with
  | some (Content.roadShp rows) =>
    let renamed : List RoadOut := rows.map (fun r => ⟨r.mean_traff, r.geometry⟩)
    let simplified := renamed.map (fun r =>
      { r with geometry := lib.simplify 0.0001 true r.geometry })
    let limited :=
      if simplified.length > 10000 then
        nlargest 10000 (fun r => r.mean_traffic) simplified
      else simplified
    Except.ok ([("road_traffic.geojson", Content.roadsOut limited)],
      ["   Simplifying geometries...",
       "   Total roads before limit: " ++ toString simplified.length]
      ++ (if simplified.length > 10000 then ["   Limited to top 10000 roads by traffic"] else [])
      ++ ["   ✓ road_traffic.geojson created (" ++ toString limited.length ++ " road segments)"])
  | _ => Except.error "read_file failed"

/-- The estimate column name of the diversity step. -/
def estimateCol : String := "Total:—Estimate"

/-- Step 7, diversity data: simplify with tolerance 0.01, then write the
frame restricted to the estimate column and geometry when that column
exists, else print a message and write nothing. -/
def step7Core (lib : GeomLib) (c : Option Content) : StepResult :=
  match c with
  | some (Content.geojson f) =>
    let rows2 := f.rows.map (fun r =>
      { r with geometry := lib.simplify 0.01 true r.geometry })
    if f.cols.contains estimateCol then
      Except.ok ([("diversity_data.geojson",
          Content.divOut { cols := [estimateCol, "geometry"], rows := rows2 })],
        ["   ✓ diversity_data.geojson created (" ++ toString rows2.length ++ " zones)"])
    else
      Except.ok ([], ["   ✗ Column Total:—Estimate not found"])
  | _ => Except.error "read_file failed"

/-- Step 8, suitability heatmap: a placeholder that only prints. -/
def step8Core : StepResult :=
  Except.ok ([],
    ["   ⚠ Suitability scores need to be calculated from your add_suitability_layer function",
     "   This will be handled by the Leaflet map using your weights"])

/-- One conversion step: its header print, the path it reads, and its
body as a function of the content found there. -/
structure Step where
  header : String
  inPath : String
  core : Option Content → StepResult

/-- The try/except wrapper around one step: on success the writes are
applied and the success lines follow the header, on an exception nothing
is written and the error line follows the header. -/
def runStep (s : Step) (fs : FS) : FS × List (String × Content) × List String :=
  match s.core (FS.read fs s.inPath) with
  | Except.ok r => (applyWrites fs r.1, r.1, s.header :: r.2)
  | Except.error e => (fs, [], [s.header, "   ✗ Error: " ++ e])

/-- Run the steps in order, threading the filesystem, collecting the
chronological writes and the console log. -/
def runSteps : List Step → FS → FS × List (String × Content) × List String
  | [], fs => (fs, [], [])
  | s :: rest, fs =>
    let r := runStep s fs
    let rr := runSteps rest r.1
    (rr.1, r.2.1 ++ rr.2.1, r.2.2 ++ rr.2.2)

/-- The eight steps of convert_all_layers, in source order. -/
def steps (lib : GeomLib) : List Step :=
  [⟨"\n1. Converting State Boundary...",
    "00_data/cb_2018_35_tract_500k/cb_2018_35_tract_500k.shp", step1Core lib⟩,
   ⟨"\n2. Converting Highway Network...",
    "extracted_osm_locations_linestring.shp", step2Core lib⟩,
   ⟨"\n3. Converting Fast Food Locations...",
    "nm_fast_food_data.csv", step3Core⟩,
   ⟨"\n4. Converting POI Locations...",
    "extracted_osm_point_locations.shp", step4Core lib⟩,
   ⟨"\n5. Converting Traffic Count Stations...",
    "00_Data/tcds_list-2.xlsx", step5Core⟩,
   ⟨"\n6. Converting Road Traffic Volume...",
    "results_interpolated_v3_MERGED_1000m_100s.shp", step6Core lib⟩,
   ⟨"\n7. Converting Diversity Data...",
    "merged_race_data.geojson", step7Core lib⟩,
   ⟨"\n8. Preparing Suitability Score Data...",
    "", fun _ => step8Core⟩]

/-- The Denver distribution center constant of output_data. -/
def denverDC : JVal :=
  JVal.obj [("lat", JVal.num 39.09820436455732),
    ("lon", JVal.num (-104.78195183701729)), ("name", JVal.str "Denver DC")]

/-- The Phoenix distribution center constant of output_data. -/
def phoenixDC : JVal :=
  JVal.obj [("lat", JVal.num 33.54855180837709),
    ("lon", JVal.num (-112.00158827551459)), ("name", JVal.str "Phoenix DC")]

/-- The output_data dictionary, built before any step runs and never
touched by a step. -/
def output_data : JVal :=
  JVal.obj [("config", JVal.obj [
    ("nm_center", JVal.arr [JVal.num 34.5199, JVal.num (-105.8701)]),
    ("default_zoom", JVal.int 6),
    ("distribution_centers", JVal.arr [denverDC, phoenixDC]),
    ("dc_radius_km", JVal.num (300 * 1.609))])]

/-- The final unconditional write of the configuration. -/
def configWrite : String × Content := ("map_config.json", Content.json output_data)

/-- The driver: run the eight wrapped steps, then write map_config.json
once, unconditionally. Returns the final filesystem, the chronological
writes, and the console log. -/
def convert_all_layers (lib : GeomLib) (fs : FS) :
    FS × List (String × Content) × List String :=
  let r := runSteps (steps lib) fs
  (FS.write r.1 configWrite.1 configWrite.2,
   r.2.1 ++ [configWrite],
   r.2.2 ++ ["\nCONVERSION COMPLETE!"])

/-! ## Filesystem lemmas -/

theorem applyWrites_nil (fs : FS) : applyWrites fs [] = fs := rfl

theorem applyWrites_cons (fs : FS) (w : String × Content) (ws : List (String × Content)) :
    applyWrites fs (w :: ws) = applyWrites (FS.write fs w.1 w.2) ws := rfl

theorem applyWrites_append (fs : FS) (a b : List (String × Content)) :
    applyWrites fs (a ++ b) = applyWrites (applyWrites fs a) b := by
  simp [applyWrites, List.foldl_append]

theorem FS.read_write (fs : FS) (p : String) (c : Content) (q : String) :
    FS.read (FS.write fs p c) q = if q = p then some c else FS.read fs q := by
  simp only [FS.read, FS.write, List.lookup]
  by_cases h : q = p
  · simp [h]
  · have hb : (q == p) = false := beq_eq_false_iff_ne.mpr h
    simp [hb, h]

theorem FS.read_applyWrites_of_not (fs : FS) (ws : List (String × Content)) (p : String)
    (h : ∀ w ∈ ws, w.1 ≠ p) : FS.read (applyWrites fs ws) p = FS.read fs p := by
  induction ws generalizing fs with
  | nil => rfl
  | cons w ws ih =>
    rw [applyWrites_cons, ih _ (fun x hx => h x (List.mem_cons_of_mem _ hx)),
      FS.read_write]
    have : p ≠ w.1 := fun hp => h w (List.mem_cons_self _ _) hp.symm
    simp [this]

/-! ## Decomposition of the driver

Every step reads only its own input path and writes only its own output
path; input paths and output paths are disjoint. Hence the writes the
driver performs are fully determined by the initial filesystem, step by
step, independently of the other steps. -/

/-- The seven data files the steps may write. -/
def stepOuts : List String :=
  ["nm_boundary.geojson", "highways.geojson", "fast_food_locations.json",
   "poi_locations.json", "traffic_stations.json", "road_traffic.geojson",
   "diversity_data.geojson"]

/-- The writes of the step list, each computed from the initial
filesystem. -/
def tracePure (l : List Step) (fs : FS) : List (String × Content) :=
  (l.map (fun s => wsOf (s.core (FS.read fs s.inPath)))).flatten

/-- The console log of the step list, each block computed from the
initial filesystem. -/
def logPure (l : List Step) (fs : FS) : List String :=
  (l.map (fun s => s.header :: msgsOf (s.core (FS.read fs s.inPath)))).flatten

theorem runStep_eq (s : Step) (fs : FS) :
    runStep s fs = (applyWrites fs (wsOf (s.core (FS.read fs s.inPath))),
      wsOf (s.core (FS.read fs s.inPath)),
      s.header :: msgsOf (s.core (FS.read fs s.inPath))) := by
  unfold runStep wsOf msgsOf
  cases s.core (FS.read fs s.inPath) with
  | ok r => rfl
  | error e => rfl

theorem runSteps_decomp (l : List Step) (fs : FS)
    (hw : ∀ s ∈ l, ∀ c, ∀ w ∈ wsOf (s.core c), w.1 ∈ stepOuts)
    (hr : ∀ s ∈ l, s.inPath ∉ stepOuts) :
    runSteps l fs = (applyWrites fs (tracePure l fs), tracePure l fs, logPure l fs) := by
  induction l generalizing fs with
  | nil => simp [runSteps, tracePure, logPure, applyWrites_nil]
  | cons s rest ih =>
    have hs : s ∈ s :: rest := List.mem_cons_self _ _
    have hread : ∀ s' ∈ rest,
        FS.read (applyWrites fs (wsOf (s.core (FS.read fs s.inPath)))) s'.inPath
          = FS.read fs s'.inPath := by
      intro s' hs'
      apply FS.read_applyWrites_of_not
      intro w hw'
      intro hcontra
      exact hr s' (List.mem_cons_of_mem _ hs') (hcontra ▸ hw s hs _ w hw')
    have htr : tracePure rest (applyWrites fs (wsOf (s.core (FS.read fs s.inPath))))
        = tracePure rest fs := by
      unfold tracePure
      congr 1
      exact List.map_congr_left (fun s' hs' => by rw [hread s' hs'])
    have hlg : logPure rest (applyWrites fs (wsOf (s.core (FS.read fs s.inPath))))
        = logPure rest fs := by
      unfold logPure
      congr 1
      exact List.map_congr_left (fun s' hs' => by rw [hread s' hs'])
    have ihr := ih (applyWrites fs (wsOf (s.core (FS.read fs s.inPath))))
      (fun s' hs' => hw s' (List.mem_cons_of_mem _ hs'))
      (fun s' hs' => hr s' (List.mem_cons_of_mem _ hs'))
    have ht2 : tracePure (s :: rest) fs
        = wsOf (s.core (FS.read fs s.inPath)) ++ tracePure rest fs := by
      simp [tracePure]
    have hl2 : logPure (s :: rest) fs
        = (s.header :: msgsOf (s.core (FS.read fs s.inPath))) ++ logPure rest fs := by
      simp [logPure]
    simp only [runSteps, runStep_eq, ihr, htr, hlg, ht2, hl2, applyWrites_append]

/-! ## Per-step write paths -/

theorem step1_writes (lib : GeomLib) (c : Option Content) :
    ∀ w ∈ wsOf (step1Core lib c), w.1 = "nm_boundary.geojson" := by
  intro w hw
  unfold step1Core at hw
  split at hw
  · simp only [wsOf, List.mem_singleton] at hw
    rw [hw]
  · simp [wsOf] at hw

theorem step2_writes (lib : GeomLib) (c : Option Content) :
    ∀ w ∈ wsOf (step2Core lib c), w.1 = "highways.geojson" := by
  intro w hw
  unfold step2Core at hw
  split at hw
  · simp only [wsOf, List.mem_singleton] at hw
    rw [hw]
  · simp [wsOf] at hw

theorem step3_writes (c : Option Content) :
    ∀ w ∈ wsOf (step3Core c), w.1 = "fast_food_locations.json" := by
  intro w hw
  unfold step3Core at hw
  split at hw
  · split at hw
    · simp only [wsOf, List.mem_singleton] at hw
      rw [hw]
    · simp [wsOf] at hw
  · simp [wsOf] at hw

theorem step4_writes (lib : GeomLib) (c : Option Content) :
    ∀ w ∈ wsOf (step4Core lib c), w.1 = "poi_locations.json" := by
  intro w hw
  unfold step4Core at hw
  split at hw
  · dsimp only at hw
    split at hw
    · simp [wsOf] at hw
    · simp only [wsOf, List.mem_singleton] at hw
      rw [hw]
  · simp [wsOf] at hw

theorem step5_writes (c : Option Content) :
    ∀ w ∈ wsOf (step5Core c), w.1 = "traffic_stations.json" := by
  intro w hw
  unfold step5Core at hw
  split at hw
  · dsimp only at hw
    split at hw
    · simp [wsOf] at hw
    · simp only [wsOf, List.mem_singleton] at hw
      rw [hw]
  · simp [wsOf] at hw

theorem step6_writes (lib : GeomLib) (c : Option Content) :
    ∀ w ∈ wsOf (step6Core lib c), w.1 = "road_traffic.geojson" := by
  intro w hw
  unfold step6Core at hw
  split at hw
  · simp only [wsOf, List.mem_singleton] at hw
    rw [hw]
  · simp [wsOf] at hw

theorem step7_writes (lib : GeomLib) (c : Option Content) :
    ∀ w ∈ wsOf (step7Core lib c), w.1 = "diversity_data.geojson" := by
  intro w hw
  unfold step7Core at hw
  split at hw
  · split at hw
    · simp only [wsOf, List.mem_singleton] at hw
      rw [hw]
    · simp [wsOf] at hw
  · simp [wsOf] at hw

theorem steps_writes (lib : GeomLib) :
    ∀ s ∈ steps lib, ∀ c, ∀ w ∈ wsOf (s.core c), w.1 ∈ stepOuts := by
  intro s hs c w hw
  simp only [steps, List.mem_cons, List.not_mem_nil, or_false] at hs
  rcases hs with rfl | rfl | rfl | rfl | rfl | rfl | rfl | rfl
  · rw [step1_writes lib c w hw]; simp [stepOuts]
  · rw [step2_writes lib c w hw]; simp [stepOuts]
  · rw [step3_writes c w hw]; simp [stepOuts]
  · rw [step4_writes lib c w hw]; simp [stepOuts]
  · rw [step5_writes c w hw]; simp [stepOuts]
  · rw [step6_writes lib c w hw]; simp [stepOuts]
  · rw [step7_writes lib c w hw]; simp [stepOuts]
  · simp [wsOf, step8Core] at hw

theorem steps_inputs (lib : GeomLib) : ∀ s ∈ steps lib, s.inPath ∉ stepOuts := by
  intro s hs
  simp only [steps, List.mem_cons, List.not_mem_nil, or_false] at hs
  rcases hs with rfl | rfl | rfl | rfl | rfl | rfl | rfl | rfl <;>
    simp [stepOuts]

/-- The chronological writes of the driver, each computed from the
initial filesystem: the per-step writes of the eight isolated steps, in
order, followed by the unconditional configuration write. -/
def traceOf (lib : GeomLib) (fs : FS) : List (String × Content) :=
  tracePure (steps lib) fs ++ [configWrite]

/-- The console log of the driver computed from the initial
filesystem. -/
def logOf (lib : GeomLib) (fs : FS) : List String :=
  logPure (steps lib) fs ++ ["\nCONVERSION COMPLETE!"]

/-- Decomposition of the driver: its writes and log are determined
step by step from the initial filesystem, and the final filesystem is
the initial one with exactly those writes applied. -/
theorem convert_all_layers_eq (lib : GeomLib) (fs : FS) :
    convert_all_layers lib fs
      = (applyWrites fs (traceOf lib fs), traceOf lib fs, logOf lib fs) := by
  unfold convert_all_layers traceOf logOf
  rw [runSteps_decomp (steps lib) fs (steps_writes lib) (steps_inputs lib),
    applyWrites_append]
  rfl

theorem tracePure_mem (l : List Step) (fs : FS) (w : String × Content)
    (hw : w ∈ tracePure l fs) :
    ∃ s ∈ l, w ∈ wsOf (s.core (FS.read fs s.inPath)) := by
  unfold tracePure at hw
  rcases List.mem_flatten.mp hw with ⟨blk, hblk, hwb⟩
  rcases List.mem_map.mp hblk with ⟨s, hs, rfl⟩
  exact ⟨s, hs, hwb⟩

theorem tracePure_paths (lib : GeomLib) (fs : FS) (w : String × Content)
    (hw : w ∈ tracePure (steps lib) fs) : w.1 ∈ stepOuts := by
  rcases tracePure_mem _ _ _ hw with ⟨s, hs, hws⟩
  exact steps_writes lib s hs _ w hws

/-! ## Sorting lemmas for nlargest -/

theorem insertDesc_perm (key : α → ℚ) (x : α) (l : List α) :
    (insertDesc key x l).Perm (x :: l) := by
  induction l with
  | nil => exact List.Perm.refl _
  | cons y ys ih =>
    unfold insertDesc
    split
    · exact (ih.cons y).trans (List.Perm.swap x y ys)
    · exact List.Perm.refl _

theorem sortDesc_perm (key : α → ℚ) (l : List α) : (sortDesc key l).Perm l := by
  induction l with
  | nil => exact List.Perm.refl _
  | cons x xs ih => exact (insertDesc_perm key x _).trans (ih.cons x)

theorem insertDesc_pairwise (key : α → ℚ) (x : α) (l : List α)
    (h : l.Pairwise (fun a b => key b ≤ key a)) :
    (insertDesc key x l).Pairwise (fun a b => key b ≤ key a) := by
  induction l with
  | nil => simp [insertDesc]
  | cons y ys ih =>
    rcases List.pairwise_cons.mp h with ⟨hy, hys⟩
    unfold insertDesc
    split
    · rename_i hlt
      refine List.pairwise_cons.mpr ⟨?_, ih hys⟩
      intro z hz
      rcases List.mem_cons.mp ((insertDesc_perm key x ys).mem_iff.mp hz) with rfl | hz'
      · exact le_of_lt hlt
      · exact hy z hz'
    · rename_i hnlt
      have hxy : key y ≤ key x := le_of_not_lt hnlt
      refine List.pairwise_cons.mpr ⟨?_, h⟩
      intro z hz
      rcases List.mem_cons.mp hz with rfl | hz'
      · exact hxy
      · exact le_trans (hy z hz') hxy

theorem sortDesc_pairwise (key : α → ℚ) (l : List α) :
    (sortDesc key l).Pairwise (fun a b => key b ≤ key a) := by
  induction l with
  | nil => simp [sortDesc]
  | cons x xs ih => exact insertDesc_pairwise key x _ ih

/-! ## Lemmas about the record-building loop -/

theorem buildRecords_ok_length (f : α → Except String JVal) (l : List α) (out : List JVal)
    (h : buildRecords f l = Except.ok out) : out.length = l.length := by
  induction l generalizing out with
  | nil =>
    unfold buildRecords at h
    cases h
    rfl
  | cons a as ih =>
    unfold buildRecords at h
    split at h
    · exact absurd h (by simp)
    · split at h
      · exact absurd h (by simp)
      · cases h
        simp [ih _ (by assumption)]

theorem buildRecords_ok_forall₂ (f : α → Except String JVal) (l : List α) (out : List JVal)
    (h : buildRecords f l = Except.ok out) :
    List.Forall₂ (fun a v => f a = Except.ok v) l out := by
  induction l generalizing out with
  | nil =>
    unfold buildRecords at h
    cases h
    exact List.Forall₂.nil
  | cons a as ih =>
    unfold buildRecords at h
    split at h
    · exact absurd h (by simp)
    · split at h
      · exact absurd h (by simp)
      · cases h
        exact List.Forall₂.cons (by assumption) (ih _ (by assumption))

/-! ## Log membership -/

theorem logPure_mem_of_step (l : List Step) (fs : FS) (s : Step) (hs : s ∈ l) (m : String)
    (hm : m ∈ s.header :: msgsOf (s.core (FS.read fs s.inPath))) : m ∈ logPure l fs := by
  unfold logPure
  exact List.mem_flatten.mpr ⟨_, List.mem_map_of_mem _ hs, hm⟩

/-! ## Shared driver facts -/

theorem steps_inputs_cfg (lib : GeomLib) :
    ∀ s ∈ steps lib, s.inPath ≠ "map_config.json" := by
  intro s hs
  simp only [steps, List.mem_cons, List.not_mem_nil, or_false] at hs
  rcases hs with rfl | rfl | rfl | rfl | rfl | rfl | rfl | rfl <;> simp

theorem driver_trace_getLast (lib : GeomLib) (fs : FS) :
    (convert_all_layers lib fs).2.1.getLast? = some configWrite := by
  rw [convert_all_layers_eq]
  dsimp only
  unfold traceOf
  exact List.getLast?_concat _

theorem driver_config_read (lib : GeomLib) (fs : FS) :
    FS.read (convert_all_layers lib fs).1 "map_config.json"
      = some (Content.json output_data) := by
  rw [convert_all_layers_eq]
  dsimp only
  unfold traceOf
  rw [applyWrites_append]
  simp [applyWrites, configWrite, FS.read_write]

/-- C1: for every geometry library and every filesystem (hence for every
possible behaviour of the eight step bodies), the driver returns
normally and (a) its writes are, step by step in order, exactly the
writes each step computes from the initial filesystem, followed by the
configuration write, so the outcome of one step never prevents or
alters another step or the final write; (b) every step header is
printed; (c) a step whose body raises an exception contributes its
diagnostic line to the log and contributes no writes; (d) the
configuration write is always performed, last. -/
theorem C1_step_isolation (lib : GeomLib) (fs : FS) :
    (convert_all_layers lib fs).2.1 = tracePure (steps lib) fs ++ [configWrite]
    ∧ (∀ s ∈ steps lib, s.header ∈ (convert_all_layers lib fs).2.2)
    ∧ (∀ s ∈ steps lib, ∀ e, s.core (FS.read fs s.inPath) = Except.error e →
        ("   ✗ Error: " ++ e) ∈ (convert_all_layers lib fs).2.2
        ∧ wsOf (s.core (FS.read fs s.inPath)) = [])
    ∧ (convert_all_layers lib fs).2.1.getLast? = some configWrite := by
  refine ⟨?_, ?_, ?_, driver_trace_getLast lib fs⟩
  · rw [convert_all_layers_eq]
    rfl
  · intro s hs
    rw [convert_all_layers_eq]
    dsimp only
    unfold logOf
    exact List.mem_append_left _
      (logPure_mem_of_step _ fs s hs _ (List.mem_cons_self _ _))
  · intro s hs e he
    constructor
    · rw [convert_all_layers_eq]
      dsimp only
      unfold logOf
      refine List.mem_append_left _ (logPure_mem_of_step _ fs s hs _ ?_)
      rw [he]
      exact List.mem_cons_of_mem _ (List.mem_cons_self _ _)
    · rw [he]
      rfl

/-- C1 witness: on the empty filesystem the first step raises (its input
file is missing) and its diagnostic line is in the log. -/
theorem C1_step_isolation_witness :
    ("   ✗ Error: read_file failed") ∈ (convert_all_layers idLib []).2.2 :=
  ((C1_step_isolation idLib []).2.2.1
    ⟨"\n1. Converting State Boundary...",
     "00_data/cb_2018_35_tract_500k/cb_2018_35_tract_500k.shp", step1Core idLib⟩
    (List.Mem.head _) "read_file failed" rfl).1

/-- C2: on every run the configuration file is written exactly once,
as the last write, with the fixed output_data value; output_data holds
the two distribution center points with their fixed coordinates and a
radius equal to 300 times 1.609. -/
theorem C2_config_contents (lib : GeomLib) (fs : FS) :
    (convert_all_layers lib fs).2.1.countP (fun w => w.1 == "map_config.json") = 1
    ∧ (convert_all_layers lib fs).2.1.getLast?
        = some ("map_config.json", Content.json output_data)
    ∧ FS.read (convert_all_layers lib fs).1 "map_config.json"
        = some (Content.json output_data)
    ∧ (∃ cfg, jget output_data "config" = some cfg
        ∧ jget cfg "distribution_centers" = some (JVal.arr [denverDC, phoenixDC])
        ∧ jget cfg "dc_radius_km" = some (JVal.num (300 * 1.609)))
    ∧ jget denverDC "name" = some (JVal.str "Denver DC")
    ∧ jget denverDC "lat" = some (JVal.num 39.09820436455732)
    ∧ jget denverDC "lon" = some (JVal.num (-104.78195183701729))
    ∧ jget phoenixDC "name" = some (JVal.str "Phoenix DC")
    ∧ jget phoenixDC "lat" = some (JVal.num 33.54855180837709)
    ∧ jget phoenixDC "lon" = some (JVal.num (-112.00158827551459)) := by
  refine ⟨?_, driver_trace_getLast lib fs, driver_config_read lib fs,
    ⟨_, rfl, rfl, rfl⟩, rfl, rfl, rfl, rfl, rfl, rfl⟩
  rw [convert_all_layers_eq]
  dsimp only
  unfold traceOf
  rw [List.countP_append]
  have h0 : (tracePure (steps lib) fs).countP (fun w => w.1 == "map_config.json") = 0 := by
    rw [List.countP_eq_zero]
    intro w hw
    have hmem := tracePure_paths lib fs w hw
    simp only [beq_iff_eq]
    intro hcontra
    rw [hcontra] at hmem
    simp [stepOuts] at hmem
  rw [h0]
  rfl

/-- C10: the content written to map_config.json is one constant,
independent of the geometry library, of every input file, and of the
success or failure of every step: any two runs agree on it. -/
theorem C10_config_independent (lib₁ : GeomLib) (fs₁ : FS) (lib₂ : GeomLib) (fs₂ : FS) :
    FS.read (convert_all_layers lib₁ fs₁).1 "map_config.json"
      = some (Content.json output_data)
    ∧ FS.read (convert_all_layers lib₁ fs₁).1 "map_config.json"
      = FS.read (convert_all_layers lib₂ fs₂).1 "map_config.json"
    ∧ (convert_all_layers lib₁ fs₁).2.1.getLast?
      = (convert_all_layers lib₂ fs₂).2.1.getLast? := by
  refine ⟨driver_config_read lib₁ fs₁, ?_, ?_⟩
  · rw [driver_config_read, driver_config_read]
  · rw [driver_trace_getLast, driver_trace_getLast]

/-! ## Rerun lemmas -/

theorem applyWrites_eq (fs : FS) (ws : List (String × Content)) :
    applyWrites fs ws = ws.reverse ++ fs := by
  induction ws generalizing fs with
  | nil => rfl
  | cons w ws ih =>
    rw [applyWrites_cons, ih]
    simp [FS.write, List.reverse_cons, List.append_assoc]

theorem lookup_append (p : String) (a b : List (String × Content)) :
    List.lookup p (a ++ b) = (List.lookup p a).orElse (fun _ => List.lookup p b) := by
  induction a with
  | nil => rfl
  | cons w ws ih =>
    rcases w with ⟨k, c⟩
    simp only [List.cons_append, List.lookup]
    cases hpk : (p == k)
    · simpa using ih
    · rfl

theorem orElse_absorb (o : Option Content) (f : Unit → Option Content) :
    (o.orElse (fun _ => o.orElse f)) = o.orElse f := by
  cases o <;> rfl

theorem driver_reads_inputs (lib : GeomLib) (fs : FS) :
    ∀ s ∈ steps lib,
      FS.read (applyWrites fs (traceOf lib fs)) s.inPath = FS.read fs s.inPath := by
  intro s hs
  apply FS.read_applyWrites_of_not
  intro w hw hcontra
  rcases List.mem_append.mp hw with h1 | h2
  · exact steps_inputs lib s hs (hcontra ▸ tracePure_paths lib fs w h1)
  · have hcfg : w = configWrite := List.mem_singleton.mp h2
    apply steps_inputs_cfg lib s hs
    rw [← hcontra, hcfg]
    rfl

theorem tracePure_congr (l : List Step) (fs₁ fs₂ : FS)
    (h : ∀ s ∈ l, FS.read fs₁ s.inPath = FS.read fs₂ s.inPath) :
    tracePure l fs₁ = tracePure l fs₂ := by
  unfold tracePure
  congr 1
  exact List.map_congr_left (fun s hs => by rw [h s hs])

theorem traceOf_applyWrites (lib : GeomLib) (fs : FS) :
    traceOf lib (applyWrites fs (traceOf lib fs)) = traceOf lib fs := by
  show tracePure (steps lib) (applyWrites fs (traceOf lib fs)) ++ [configWrite]
    = tracePure (steps lib) fs ++ [configWrite]
  rw [tracePure_congr (steps lib) _ fs (driver_reads_inputs lib fs)]

/-- C9: a second run of the driver on the filesystem the first run
produced performs the identical writes (the outputs depend only on the
untouched input files), and the filesystem after the second run is
observationally equal to the one after the first: each step is
deterministic and the rerun overwrites every output with identical
content. -/
theorem C9_idempotent (lib : GeomLib) (fs : FS) :
    (convert_all_layers lib (convert_all_layers lib fs).1).2.1
      = (convert_all_layers lib fs).2.1
    ∧ ∀ p, FS.read (convert_all_layers lib (convert_all_layers lib fs).1).1 p
        = FS.read (convert_all_layers lib fs).1 p := by
  constructor
  · simp only [convert_all_layers_eq]
    exact traceOf_applyWrites lib fs
  · intro p
    simp only [convert_all_layers_eq]
    rw [traceOf_applyWrites lib fs]
    unfold FS.read
    rw [applyWrites_eq fs (traceOf lib fs),
      applyWrites_eq (List.reverse (traceOf lib fs) ++ fs) (traceOf lib fs),
      lookup_append, lookup_append]
    exact orElse_absorb _ _

/-! ## C3: the traffic station step -/

theorem filter_length_partition (p : α → Bool) (l : List α) :
    (l.filter p).length + (l.filter (fun a => !p a)).length = l.length := by
  induction l with
  | nil => rfl
  | cons a l ih =>
    cases hpa : p a <;> simp [List.filter_cons, hpa] <;> omega

theorem buildRecords_station (l : List StationRow)
    (h : ∀ r ∈ l, stationComplete r = true) :
    buildRecords stationRecord l = Except.ok (l.map (fun r =>
      JVal.obj [("lat", optNum r.Latitude), ("lon", optNum r.Longitude),
        ("count", JVal.int (pyInt (r.TrafficCount.getD 0))),
        ("loc_id", optStr r.Loc_ID)])) := by
  induction l with
  | nil => rfl
  | cons r rs ih =>
    have hr := h r (List.mem_cons_self _ _)
    simp only [stationComplete, Bool.and_eq_true, Option.isSome_iff_exists] at hr
    obtain ⟨⟨-, -⟩, ⟨q, hq⟩⟩ := hr
    have hsr : stationRecord r = Except.ok (JVal.obj [("lat", optNum r.Latitude),
        ("lon", optNum r.Longitude), ("count", JVal.int (pyInt q)),
        ("loc_id", optStr r.Loc_ID)]) := by
      unfold stationRecord
      rw [hq]
    unfold buildRecords
    rw [hsr, ih (fun x hx => h x (List.mem_cons_of_mem _ hx))]
    simp [hq]

/-- C3: when the station step succeeds on a spreadsheet, every record of
the written station list has a numeric (non-null) latitude and
longitude and an integer count cast from the source value; every record
originates in an input row that has all three fields, and the record
count plus the count of rows missing one of the fields equals the input
row count, so a row missing latitude, longitude or the count value is
absent from the output. -/
theorem C3_station_records (rows : List StationRow) (out : List JVal) (msgs : List String)
    (h : step5Core (some (Content.xlsx rows))
        = Except.ok ([("traffic_stations.json", Content.json (JVal.arr out))], msgs)) :
    (∀ v ∈ out, (∃ q : ℚ, jget v "lat" = some (JVal.num q))
      ∧ (∃ q : ℚ, jget v "lon" = some (JVal.num q))
      ∧ (∃ n : ℤ, jget v "count" = some (JVal.int n)))
    ∧ (∀ v ∈ out, ∃ r ∈ rows, stationComplete r = true
        ∧ ∃ q : ℚ, r.TrafficCount = some q
          ∧ v = JVal.obj [("lat", optNum r.Latitude), ("lon", optNum r.Longitude),
              ("count", JVal.int (pyInt q)), ("loc_id", optStr r.Loc_ID)])
    ∧ out.length = (rows.filter stationComplete).length
    ∧ out.length + (rows.filter (fun r => !stationComplete r)).length
        = rows.length := by
  have hfilter : ∀ r ∈ rows.filter stationComplete, stationComplete r = true :=
    fun r hr => (List.mem_filter.mp hr).2
  have hb := buildRecords_station _ hfilter
  simp only [step5Core] at h
  rw [hb] at h
  simp only [Except.ok.injEq, Prod.mk.injEq, List.cons.injEq, Content.json.injEq,
    JVal.arr.injEq, and_true, true_and] at h
  obtain ⟨rfl, -⟩ := h
  have hcomplete : ∀ r ∈ rows.filter stationComplete,
      (∃ ql, r.Latitude = some ql) ∧ (∃ qo, r.Longitude = some qo)
        ∧ (∃ qt, r.TrafficCount = some qt) := by
    intro r hr
    have h2 := hfilter r hr
    simp only [stationComplete, Bool.and_eq_true, Option.isSome_iff_exists] at h2
    exact ⟨h2.1.1, h2.1.2, h2.2⟩
  refine ⟨?_, ?_, ?_, ?_⟩
  · intro v hv
    rcases List.mem_map.mp hv with ⟨r, hr, rfl⟩
    obtain ⟨⟨ql, hql⟩, ⟨qo, hqo⟩, ⟨qt, hqt⟩⟩ := hcomplete r hr
    exact ⟨⟨ql, by simp [jget, List.lookup, hql, optNum]⟩,
      ⟨qo, by simp [jget, List.lookup, hqo, optNum]⟩,
      ⟨pyInt qt, by simp [jget, List.lookup, hqt]⟩⟩
  · intro v hv
    rcases List.mem_map.mp hv with ⟨r, hr, rfl⟩
    obtain ⟨-, -, ⟨qt, hqt⟩⟩ := hcomplete r hr
    exact ⟨r, (List.mem_filter.mp hr).1, hfilter r hr, qt, hqt, by simp [hqt]⟩
  · simp
  · simp only [List.length_map]
    exact filter_length_partition stationComplete rows

/-- A complete station row for the C3 witness. -/
def stRowA : StationRow :=
  { Loc_ID := some "A", Latitude := some 35, Longitude := some (-106),
    TrafficCount := some (7/2) }

/-- A station row missing its latitude, for the C3 witness. -/
def stRowB : StationRow :=
  { Loc_ID := some "B", Latitude := none, Longitude := some (-105),
    TrafficCount := some 2 }

/-- C3 witness: on a concrete spreadsheet with one complete and one
incomplete row the step succeeds and the accounting of kept and dropped
rows holds. -/
theorem C3_station_records_witness :
    [JVal.obj [("lat", JVal.num 35), ("lon", JVal.num (-106)),
      ("count", JVal.int 3), ("loc_id", JVal.str "A")]].length
      = ([stRowA, stRowB].filter stationComplete).length
    ∧ ([JVal.obj [("lat", JVal.num 35), ("lon", JVal.num (-106)),
        ("count", JVal.int 3), ("loc_id", JVal.str "A")]].length
      + ([stRowA, stRowB].filter (fun r => !stationComplete r)).length
      = [stRowA, stRowB].length) :=
  ⟨(C3_station_records [stRowA, stRowB] _ _ rfl).2.2.1,
   (C3_station_records [stRowA, stRowB] _ _ rfl).2.2.2⟩

/-! ## C4: the road traffic step -/

theorem nlargest_spec (n : ℕ) (key : α → ℚ) (l : List α) (h : n ≤ l.length) :
    (nlargest n key l).length = n
    ∧ ∃ rest, l.Perm (nlargest n key l ++ rest)
      ∧ ∀ a ∈ nlargest n key l, ∀ b ∈ rest, key b ≤ key a := by
  have hperm := sortDesc_perm key l
  have hlen : (sortDesc key l).length = l.length := hperm.length_eq
  refine ⟨?_, (sortDesc key l).drop n, ?_, ?_⟩
  · unfold nlargest
    rw [List.length_take, hlen]
    exact min_eq_left h
  · have h2 := hperm.symm
    rw [← List.take_append_drop n (sortDesc key l)] at h2
    exact h2
  · intro a ha b hb
    have hp := sortDesc_pairwise key l
    rw [← List.take_append_drop n (sortDesc key l)] at hp
    exact (List.pairwise_append.mp hp).2.2 a ha b hb

/-- C4: the road traffic step always succeeds on a readable shapefile;
when the input has more than 10000 features the written set has exactly
10000 features, is a sub-multiset of the renamed and simplified input,
and every kept feature carries a mean_traffic at least as large as that
of every dropped feature; when the input has at most 10000 features the
written set is exactly every input feature, renamed to mean_traffic and
with geometry simplified at tolerance 0.0001 with topology
preserved. -/
theorem C4_road_limit (lib : GeomLib) (rows : List RoadRow) :
    ∃ out msgs,
      step6Core lib (some (Content.roadShp rows))
        = Except.ok ([("road_traffic.geojson", Content.roadsOut out)], msgs)
      ∧ (rows.length > 10000 →
          out.length = 10000
          ∧ ∃ rest, (rows.map (fun r => RoadOut.mk r.mean_traff
                (lib.simplify 0.0001 true r.geometry))).Perm (out ++ rest)
            ∧ ∀ a ∈ out, ∀ b ∈ rest, b.mean_traffic ≤ a.mean_traffic)
      ∧ (rows.length ≤ 10000 →
          out = rows.map (fun r => RoadOut.mk r.mean_traff
            (lib.simplify 0.0001 true r.geometry))) := by
  have hfuse : (rows.map (fun r => (⟨r.mean_traff, r.geometry⟩ : RoadOut))).map
      (fun r => { r with geometry := lib.simplify 0.0001 true r.geometry })
      = rows.map (fun r => RoadOut.mk r.mean_traff
          (lib.simplify 0.0001 true r.geometry)) := by
    rw [List.map_map]
    rfl
  simp only [step6Core, hfuse]
  set proc := rows.map (fun r => RoadOut.mk r.mean_traff
    (lib.simplify 0.0001 true r.geometry)) with hproc
  have hplen : proc.length = rows.length := by simp [hproc]
  by_cases hlen : proc.length > 10000
  · simp only [if_pos hlen]
    have hn : 10000 ≤ proc.length := le_of_lt hlen
    obtain ⟨hl, rest, hperm, hthresh⟩ := nlargest_spec 10000 (fun r => r.mean_traffic) proc hn
    refine ⟨_, _, rfl, ?_, ?_⟩
    · intro _
      exact ⟨hl, rest, hperm, hthresh⟩
    · intro hle
      omega
  · simp only [if_neg hlen]
    refine ⟨_, _, rfl, ?_, fun _ => rfl⟩
    intro hgt
    omega

/-- A concrete road row for the C4 witness. -/
def roadRow0 : RoadRow := { mean_traff := 5, geometry := Geom.point 0 0 }

/-- C4 witness: on a concrete input of 10001 identical features the step
succeeds and the written set has exactly 10000 features. -/
theorem C4_road_limit_witness :
    ∃ out msgs,
      step6Core idLib (some (Content.roadShp (List.replicate 10001 roadRow0)))
        = Except.ok ([("road_traffic.geojson", Content.roadsOut out)], msgs)
      ∧ out.length = 10000 := by
  obtain ⟨out, msgs, heq, hgt, -⟩ := C4_road_limit idLib (List.replicate 10001 roadRow0)
  exact ⟨out, msgs, heq, (hgt (by rw [List.length_replicate]; norm_num)).1⟩

/-! ## C5: the fast food rating field -/

/-- A concrete fast food row whose rating cell is NaN. -/
def c5row : FoodRow :=
  { Name := some "A", Latitude := some 1, Longitude := some 2, Rating := none }

/-- C5 counterexample: for a row with a NaN rating the output record
still has a rating entry; it is present with the null value, not
absent. -/
theorem C5_rating_counterexample :
    "rating" ∈ jKeys (ffJson c5row)
    ∧ jget (ffJson c5row) "rating" = some JVal.null :=
  ⟨by decide, rfl⟩

/-- C5 as amended: for every input row the output record keeps name,
latitude and longitude; the rating entry is always present, holding
null exactly when the source rating is NaN and the numeric rating
otherwise. -/
theorem C5_rating_null (r : FoodRow) :
    (r.Rating = none → jget (ffJson r) "rating" = some JVal.null)
    ∧ (∀ q, r.Rating = some q → jget (ffJson r) "rating" = some (JVal.num q))
    ∧ jget (ffJson r) "name" = some (optStr r.Name)
    ∧ jget (ffJson r) "lat" = some (optNum r.Latitude)
    ∧ jget (ffJson r) "lon" = some (optNum r.Longitude) := by
  refine ⟨?_, ?_, rfl, rfl, rfl⟩
  · intro h
    simp [ffJson, jget, List.lookup, h]
  · intro q h
    simp [ffJson, jget, List.lookup, h]

/-- C5 witness: the amended claim evaluated on the concrete NaN-rating
row. -/
theorem C5_rating_null_witness : jget (ffJson c5row) "rating" = some JVal.null :=
  (C5_rating_null c5row).1 rfl

/-! ## C6: record counts of the food and POI steps -/

/-- C6: whenever the food step succeeds, the written list has one record
per CSV row, and whenever the POI step succeeds, the written list has
one record per input feature; no individual record is dropped. -/
theorem C6_point_counts (lib : GeomLib) (f : FoodCsv) (rows : List PoiRow) :
    (∀ ws msgs, step3Core (some (Content.csv f)) = Except.ok (ws, msgs) →
      ∃ out, ws = [("fast_food_locations.json", Content.json (JVal.arr out))]
        ∧ out.length = f.rows.length)
    ∧ (∀ ws msgs, step4Core lib (some (Content.pointShp rows)) = Except.ok (ws, msgs) →
      ∃ out, ws = [("poi_locations.json", Content.json (JVal.arr out))]
        ∧ out.length = rows.length) := by
  constructor
  · intro ws msgs h
    simp only [step3Core] at h
    split at h
    · injection h with h1
      injection h1 with hw hm
      exact ⟨f.rows.map ffJson, hw.symm, by simp⟩
    · exact absurd h (by simp)
  · intro ws msgs h
    unfold step4Core at h
    dsimp only at h
    split at h
    · exact absurd h (by simp)
    · rename_i recs hrecs
      injection h with h1
      injection h1 with hw hm
      refine ⟨recs, hw.symm, ?_⟩
      rw [buildRecords_ok_length _ _ _ hrecs]
      simp

/-- A concrete fast food row for the C6 witness. -/
def fRow0 : FoodRow :=
  { Name := some "B", Latitude := some 3, Longitude := some 4, Rating := some 5 }

/-- A concrete fast food CSV for the C6 witness. -/
def foodCsv0 : FoodCsv :=
  { cols := ["Name", "Latitude", "Longitude", "Rating", "Address"],
    rows := [fRow0] }

/-- A concrete POI list for the C6 witness (unused branch input). -/
def poiRows0 : List PoiRow := [{ name := some "U", geometry := Geom.point 1 2 }]

/-- C6 witness: the food step on a concrete one-row CSV succeeds and the
written list has one record. -/
theorem C6_point_counts_witness :
    ∃ out, ([("fast_food_locations.json",
        Content.json (JVal.arr (foodCsv0.rows.map ffJson)))] : List (String × Content))
        = [("fast_food_locations.json", Content.json (JVal.arr out))]
      ∧ out.length = foodCsv0.rows.length :=
  (C6_point_counts idLib foodCsv0 poiRows0).1 _ _ rfl

/-! ## C7: POI centroids -/

/-- C7: when the POI step succeeds, the output records correspond one to
one with the input features; a feature with Polygon or MultiPolygon
geometry yields the y and x coordinates of the centroid the geometry
library computes for it, and a feature with point geometry keeps its
own coordinates. -/
theorem C7_poi_centroid (lib : GeomLib) (rows : List PoiRow) (out : List JVal)
    (msgs : List String)
    (h : step4Core lib (some (Content.pointShp rows))
        = Except.ok ([("poi_locations.json", Content.json (JVal.arr out))], msgs)) :
    List.Forall₂ (fun (r : PoiRow) (v : JVal) =>
      (isAreal r.geometry = true →
        v = JVal.obj [("lat", JVal.num (lib.centroid r.geometry).2),
          ("lon", JVal.num (lib.centroid r.geometry).1), ("name", optStr r.name)])
      ∧ (∀ x y, r.geometry = Geom.point x y →
        v = JVal.obj [("lat", JVal.num y), ("lon", JVal.num x),
          ("name", optStr r.name)])) rows out := by
  unfold step4Core at h
  dsimp only at h
  split at h
  · exact absurd h (by simp)
  · rename_i recs hrecs
    injection h with h1
    injection h1 with hw hm
    have hro : recs = out := by simpa using hw
    subst hro
    have hf := buildRecords_ok_forall₂ poiRecord (rows.map (poiReplace lib)) recs hrecs
    rw [List.forall₂_map_left_iff] at hf
    refine hf.imp ?_
    intro r v hrv
    constructor
    · intro hareal
      unfold poiReplace at hrv
      rw [if_pos hareal] at hrv
      simp only [poiRecord, Geom.y, Geom.x, Except.ok.injEq] at hrv
      exact hrv.symm
    · intro x y hxy
      have hnareal : isAreal r.geometry = false := by rw [hxy]; rfl
      unfold poiReplace at hrv
      rw [if_neg (by simp [hnareal])] at hrv
      unfold poiRecord at hrv
      rw [hxy] at hrv
      simp only [Geom.y, Geom.x, Except.ok.injEq] at hrv
      exact hrv.symm

/-- A polygonal POI for the C7 witness. -/
def poiPolyRow : PoiRow :=
  { name := some "Mall", geometry := Geom.polygon [[(0, 0), (4, 0), (0, 4)]] }

/-- C7 witness: the POI step on one concrete polygon feature succeeds
and the record carries the centroid coordinates of that polygon. -/
theorem C7_poi_centroid_witness :
    List.Forall₂ (fun (r : PoiRow) (v : JVal) =>
      (isAreal r.geometry = true →
        v = JVal.obj [("lat", JVal.num (idLib.centroid r.geometry).2),
          ("lon", JVal.num (idLib.centroid r.geometry).1), ("name", optStr r.name)])
      ∧ (∀ x y, r.geometry = Geom.point x y →
        v = JVal.obj [("lat", JVal.num y), ("lon", JVal.num x),
          ("name", optStr r.name)])) [poiPolyRow]
      [JVal.obj [("lat", JVal.num 0), ("lon", JVal.num 0),
        ("name", JVal.str "Mall")]] :=
  C7_poi_centroid idLib [poiPolyRow] _ _ rfl

/-! ## C8: the diversity step -/

/-- C8: on a readable GeoJSON frame the diversity step writes its output
exactly when the estimate column is present; in that case the written
frame retains exactly the estimate attribute and the geometry, every
geometry simplified at tolerance 0.01 with topology preserved; when the
column is absent the step writes nothing and prints the column-missing
message. -/
theorem C8_diversity (lib : GeomLib) (f : DivFrame) :
    (wsOf (step7Core lib (some (Content.geojson f))) ≠ [] ↔ estimateCol ∈ f.cols)
    ∧ (estimateCol ∈ f.cols →
        step7Core lib (some (Content.geojson f))
          = Except.ok ([("diversity_data.geojson", Content.divOut
              { cols := [estimateCol, "geometry"],
                rows := f.rows.map (fun r =>
                  { r with geometry := lib.simplify 0.01 true r.geometry }) })],
            ["   ✓ diversity_data.geojson created ("
              ++ toString (f.rows.map (fun r =>
                  { r with geometry := lib.simplify 0.01 true r.geometry })).length
              ++ " zones)"]))
    ∧ (estimateCol ∉ f.cols →
        wsOf (step7Core lib (some (Content.geojson f))) = []
        ∧ "   ✗ Column Total:—Estimate not found"
            ∈ msgsOf (step7Core lib (some (Content.geojson f)))) := by
  by_cases hc : estimateCol ∈ f.cols
  · have hcb : f.cols.contains estimateCol = true := by
      simp [List.contains, hc]
    have hstep : step7Core lib (some (Content.geojson f))
        = Except.ok ([("diversity_data.geojson", Content.divOut
            { cols := [estimateCol, "geometry"],
              rows := f.rows.map (fun r =>
                { r with geometry := lib.simplify 0.01 true r.geometry }) })],
          ["   ✓ diversity_data.geojson created ("
            ++ toString (f.rows.map (fun r =>
                { r with geometry := lib.simplify 0.01 true r.geometry })).length
            ++ " zones)"]) := by
      simp only [step7Core]
      rw [if_pos hcb]
    refine ⟨?_, fun _ => hstep, fun hn => absurd hc hn⟩
    rw [hstep]
    exact ⟨fun _ => hc, fun _ => by simp [wsOf]⟩
  · have hcb : f.cols.contains estimateCol = false := by
      simp [List.contains, hc]
    have hstep : step7Core lib (some (Content.geojson f))
        = Except.ok ([], ["   ✗ Column Total:—Estimate not found"]) := by
      simp only [step7Core]
      rw [if_neg (by rw [hcb]; simp)]
    refine ⟨?_, fun hmem => absurd hmem hc, fun _ => ?_⟩
    · rw [hstep]
      exact ⟨fun hne => absurd rfl hne, fun hmem => absurd hmem hc⟩
    · rw [hstep]
      exact ⟨rfl, by simp [msgsOf]⟩

/-- A concrete frame containing the estimate column for the C8
witness. -/
def divFrame0 : DivFrame :=
  { cols := [estimateCol, "GEOID", "geometry"],
    rows := [{ estimate := some 100, geometry := Geom.polygon [[(0, 0), (1, 0), (0, 1)]] }] }

/-- C8 witness: on a concrete frame holding the estimate column the step
writes the restricted, simplified frame. -/
theorem C8_diversity_witness :
    step7Core idLib (some (Content.geojson divFrame0))
      = Except.ok ([("diversity_data.geojson", Content.divOut
          { cols := [estimateCol, "geometry"],
            rows := divFrame0.rows.map (fun r =>
              { r with geometry := idLib.simplify 0.01 true r.geometry }) })],
        ["   ✓ diversity_data.geojson created ("
          ++ toString (divFrame0.rows.map (fun r =>
              { r with geometry := idLib.simplify 0.01 true r.geometry })).length
          ++ " zones)"]) :=
  (C8_diversity idLib divFrame0).2.1 (by decide)
